import Mathlib

/-!
Verification development for the operius knowledge-base demo
(`backend/search_agent.py`, `backend/vector_store.py`,
`backend/sources/kubernetes.py`, `backend/ingestion_pipeline.py`).

Python values are shallowly embedded:
* `str` becomes `String`; Python `s.lower()` is modelled by `strLower`,
  implemented over the character list so that it is kernel-reducible
  (the keyword tables are ASCII, where the two agree);
* Python dicts that are built by key assignment become insertion-ordered
  association lists (`List (String × String)`) with `dictInsert`
  mirroring `d[k] = v` (overwrite in place, else append);
* `Optional[str]` becomes `Option String`, with Python truthiness
  (`None` and `""` are falsy) modelled by `pyTruthy`;
* floating-point distances are modelled as rationals (`ℚ`);
* exceptions become `Except String` results.
-/

/-- Substring test on character lists: `hasInfix n h` is true iff `n`
occurs contiguously inside `h` (this is Python's `n in h`). -/
def hasInfix : List Char → List Char → Bool
  | n, [] => n.isEmpty
  | n, c :: t => List.isPrefixOf n (c :: t) || hasInfix n t

/-- Python's `needle in hay` on strings. -/
def strContains (hay needle : String) : Bool := hasInfix needle.data hay.data

/-- Python's `s.lower()` (ASCII case folding, kernel-reducible). -/
def strLower (s : String) : String := String.mk (s.data.map Char.toLower)

/-- Python truthiness of an `Optional[str]`: `None` and `""` are falsy. -/
def pyTruthy : Option String → Bool
  | none => false
  | some s => !s.isEmpty

/-- Python dict assignment `d[k] = v` on an insertion-ordered association
list: overwrite the value in place if the key is present, else append. -/
def dictInsert (d : List (String × String)) (k v : String) : List (String × String) :=
  if d.any (fun p => p.1 == k) then
    d.map (fun p => if p.1 == k then (k, v) else p)
  else
    d ++ [(k, v)]

/-! ## `SearchAgent.analyze_query_intent` (search_agent.py:205-259) -/

/-- `intent_analysis` dict of `analyze_query_intent`. -/
structure IntentAnalysis where
  query : String
  detected_intents : List String
  suggested_filters : List (String × String)
  search_suggestions : List String
deriving DecidableEq, Repr

/-- `k8s_keywords` (search_agent.py:225). -/
def k8s_keywords : List String :=
  ["pod", "service", "deployment", "namespace", "ingress", "configmap", "secret"]

/-- `github_keywords` (search_agent.py:237). -/
def github_keywords : List String :=
  ["code", "file", "repository", "repo", "function", "class", "import"]

/-- `languages` (search_agent.py:243). -/
def known_languages : List String :=
  ["python", "javascript", "java", "go", "rust", "typescript", "yaml", "json"]

/-- Kubernetes branch (search_agent.py:224-234): on any keyword hit, append
the intent, set `source`, and set `kind` from the first matching keyword. -/
def detectKubernetes (ql : String) (a : IntentAnalysis) : IntentAnalysis :=
  if k8s_keywords.any (fun kw => strContains ql kw) then
    match k8s_keywords.find? (fun kw => strContains ql kw) with
    | some kw =>
        { a with
          detected_intents := a.detected_intents ++ ["kubernetes"],
          suggested_filters :=
            dictInsert (dictInsert a.suggested_filters "source" "kubernetes")
              "kind" kw.capitalize }
    | none =>
        { a with
          detected_intents := a.detected_intents ++ ["kubernetes"],
          suggested_filters := dictInsert a.suggested_filters "source" "kubernetes" }
  else a

/-- GitHub branch (search_agent.py:236-240). -/
def detectGithub (ql : String) (a : IntentAnalysis) : IntentAnalysis :=
  if github_keywords.any (fun kw => strContains ql kw) then
    { a with
      detected_intents := a.detected_intents ++ ["github"],
      suggested_filters := dictInsert a.suggested_filters "source" "github" }
  else a

/-- Language branch (search_agent.py:242-247): first matching language wins. -/
def detectLanguage (ql : String) (a : IntentAnalysis) : IntentAnalysis :=
  match known_languages.find? (fun lang => strContains ql lang) with
  | some lang => { a with suggested_filters := dictInsert a.suggested_filters "language" lang }
  | none => a

/-- Suggestion generation (search_agent.py:249-257): three sequential
conditional appends to `search_suggestions`. -/
def addSuggestions (a : IntentAnalysis) : IntentAnalysis :=
  { a with search_suggestions :=
      a.search_suggestions ++
      (if a.detected_intents.isEmpty then
        ["Try adding keywords like \x27kubernetes\x27, \x27pod\x27, \x27code\x27, or \x27file\x27"]
      else []) ++
      (if a.detected_intents.contains "kubernetes" then
        ["Use search_kubernetes() for better Kubernetes-specific results"]
      else []) ++
      (if a.detected_intents.contains "github" then
        ["Use search_github() for better code search results"]
      else []) }

/-- `SearchAgent.analyze_query_intent` (search_agent.py:205-259). -/
def analyze_query_intent (query : String) : IntentAnalysis :=
  let ql := strLower query
  addSuggestions (detectLanguage ql (detectGithub ql (detectKubernetes ql
    { query := query, detected_intents := [], suggested_filters := [],
      search_suggestions := [] })))

/-- `List.lookup` on a cons cell, phrased with a propositional `if`. -/
theorem lookup_cons_eq_ite (k : String) (p : String × String) (t : List (String × String)) :
    List.lookup k (p :: t) = if k = p.1 then some p.2 else List.lookup k t := by
  rcases p with ⟨a, b⟩
  rw [List.lookup_cons]
  cases h : (k == a) with
  | false => simp [beq_eq_false_iff_ne.mp h]
  | true => simp [beq_iff_eq.mp h]

theorem lookup_replace_self (t : List (String × String)) (k v : String)
    (h : t.any (fun p => p.1 == k) = true) :
    (t.map (fun p => if p.1 == k then (k, v) else p)).lookup k = some v := by
  induction t with
  | nil => simp at h
  | cons p t ih =>
    by_cases hpk : p.1 = k
    · simp [List.map_cons, lookup_cons_eq_ite, hpk]
    · have hb : (p.1 == k) = false := beq_eq_false_iff_ne.mpr hpk
      have ht : t.any (fun q => q.1 == k) = true := by
        rw [List.any_cons, hb, Bool.false_or] at h
        exact h
      simp only [List.map_cons, hb, Bool.false_eq_true, if_false, lookup_cons_eq_ite,
        if_neg (Ne.symm hpk)]
      exact ih ht

theorem lookup_append_self (t : List (String × String)) (k v : String)
    (h : t.any (fun p => p.1 == k) = false) :
    (t ++ [(k, v)]).lookup k = some v := by
  induction t with
  | nil => simp [lookup_cons_eq_ite]
  | cons p t ih =>
    rw [List.any_cons] at h
    rcases Bool.or_eq_false_iff.mp h with ⟨hb, ht⟩
    have hne : p.1 ≠ k := beq_eq_false_iff_ne.mp hb
    simp only [List.cons_append, lookup_cons_eq_ite, if_neg (Ne.symm hne)]
    exact ih ht

theorem lookup_replace_ne (t : List (String × String)) (k v k' : String) (h : k' ≠ k) :
    (t.map (fun p => if p.1 == k then (k, v) else p)).lookup k' = t.lookup k' := by
  induction t with
  | nil => rfl
  | cons p t ih =>
    by_cases hpk : p.1 = k
    · simp only [List.map_cons, lookup_cons_eq_ite, hpk, beq_self_eq_true, if_true,
        if_neg h]
      exact ih
    · have hb : (p.1 == k) = false := beq_eq_false_iff_ne.mpr hpk
      simp only [List.map_cons, hb, Bool.false_eq_true, if_false, lookup_cons_eq_ite]
      by_cases hk'p : k' = p.1
      · simp [hk'p]
      · simp only [if_neg hk'p]
        exact ih

theorem lookup_append_ne (t : List (String × String)) (k v k' : String) (h : k' ≠ k) :
    (t ++ [(k, v)]).lookup k' = t.lookup k' := by
  induction t with
  | nil => simp [List.lookup, beq_eq_false_iff_ne.mpr h]
  | cons p t ih =>
    simp only [List.cons_append, lookup_cons_eq_ite]
    by_cases hk'p : k' = p.1
    · simp [hk'p]
    · simp only [if_neg hk'p]
      exact ih

/-- Looking up the key just written by `dictInsert` yields the new value. -/
theorem lookup_dictInsert_self (d : List (String × String)) (k v : String) :
    (dictInsert d k v).lookup k = some v := by
  rw [dictInsert]
  cases hany : d.any (fun p => p.1 == k) with
  | true => simpa using lookup_replace_self d k v hany
  | false => simpa using lookup_append_self d k v hany

/-- `dictInsert` at one key does not change lookups of another key. -/
theorem lookup_dictInsert_ne (d : List (String × String)) (k v k' : String)
    (h : k' ≠ k) : (dictInsert d k v).lookup k' = d.lookup k' := by
  rw [dictInsert]
  cases hany : d.any (fun p => p.1 == k) with
  | true => simpa using lookup_replace_ne d k v k' h
  | false => simpa using lookup_append_ne d k v k' h

/-- C6: for the query "python function in repo", `analyze_query_intent`
returns `detected_intents = ["github"]` and `suggested_filters` equal exactly
to `{source: github, language: python}` (no `kind` key). -/
theorem analyze_python_function_repo :
    (analyze_query_intent "python function in repo").detected_intents = ["github"] ∧
    (analyze_query_intent "python function in repo").suggested_filters =
      [("source", "github"), ("language", "python")] := by
  constructor <;> rfl

/-! ### Stage lemmas for `analyze_query_intent` -/

theorem addSuggestions_intents (a : IntentAnalysis) :
    (addSuggestions a).detected_intents = a.detected_intents := rfl

theorem addSuggestions_filters (a : IntentAnalysis) :
    (addSuggestions a).suggested_filters = a.suggested_filters := rfl

theorem detectLanguage_intents (ql : String) (a : IntentAnalysis) :
    (detectLanguage ql a).detected_intents = a.detected_intents := by
  unfold detectLanguage
  cases known_languages.find? (fun lang => strContains ql lang) <;> rfl

theorem detectLanguage_source (ql : String) (a : IntentAnalysis) :
    (detectLanguage ql a).suggested_filters.lookup "source" =
      a.suggested_filters.lookup "source" := by
  unfold detectLanguage
  cases known_languages.find? (fun lang => strContains ql lang) with
  | none => rfl
  | some lang =>
    exact lookup_dictInsert_ne _ _ _ _ (by decide)

theorem detectGithub_neg (ql : String) (a : IntentAnalysis)
    (hg : github_keywords.any (fun kw => strContains ql kw) = false) :
    detectGithub ql a = a := by
  unfold detectGithub
  rw [hg]
  rfl

theorem detectGithub_intents_pos (ql : String) (a : IntentAnalysis)
    (hg : github_keywords.any (fun kw => strContains ql kw) = true) :
    (detectGithub ql a).detected_intents = a.detected_intents ++ ["github"] := by
  unfold detectGithub
  rw [hg]
  rfl

theorem detectGithub_source_pos (ql : String) (a : IntentAnalysis)
    (hg : github_keywords.any (fun kw => strContains ql kw) = true) :
    (detectGithub ql a).suggested_filters.lookup "source" = some "github" := by
  unfold detectGithub
  rw [hg]
  exact lookup_dictInsert_self _ _ _

theorem detectGithub_intents_mem (ql : String) (a : IntentAnalysis) (x : String)
    (hx : x ∈ a.detected_intents) : x ∈ (detectGithub ql a).detected_intents := by
  unfold detectGithub
  split
  · simp [hx]
  · exact hx

theorem detectKubernetes_intents (ql : String) (a : IntentAnalysis)
    (hk : k8s_keywords.any (fun kw => strContains ql kw) = true) :
    (detectKubernetes ql a).detected_intents = a.detected_intents ++ ["kubernetes"] := by
  unfold detectKubernetes
  rw [hk]
  cases k8s_keywords.find? (fun kw => strContains ql kw) <;> rfl

theorem detectKubernetes_source (ql : String) (a : IntentAnalysis)
    (hk : k8s_keywords.any (fun kw => strContains ql kw) = true) :
    (detectKubernetes ql a).suggested_filters.lookup "source" = some "kubernetes" := by
  unfold detectKubernetes
  rw [hk, if_pos rfl]
  cases k8s_keywords.find? (fun kw => strContains ql kw) with
  | none => exact lookup_dictInsert_self _ _ _
  | some kw =>
    exact (lookup_dictInsert_ne _ "kind" kw.capitalize "source" (by decide)).trans
      (lookup_dictInsert_self _ _ _)

/-- C1 counterexample: the query "pod repo" contains the Kubernetes keyword
"pod", yet the final suggested `source` filter is not "kubernetes" (the
GitHub branch overwrites it). -/
theorem k8s_keyword_source_counterexample :
    ("pod" ∈ k8s_keywords ∧ strContains (strLower "pod repo") "pod" = true) ∧
    "kubernetes" ∈ (analyze_query_intent "pod repo").detected_intents ∧
    ¬ (analyze_query_intent "pod repo").suggested_filters.lookup "source" =
        some "kubernetes" := by
  refine ⟨⟨by decide, by decide⟩, by decide, by decide⟩

/-- C1 (amended): a query containing a Kubernetes keyword always gets
"kubernetes" into `detected_intents`; the suggested `source` filter is
"kubernetes" provided no GitHub keyword also occurs (otherwise the GitHub
branch overwrites it, search_agent.py:240). -/
theorem analyze_k8s_keyword_amended (q : String)
    (hk : k8s_keywords.any (fun kw => strContains (strLower q) kw) = true) :
    "kubernetes" ∈ (analyze_query_intent q).detected_intents ∧
    (github_keywords.any (fun kw => strContains (strLower q) kw) = false →
      (analyze_query_intent q).suggested_filters.lookup "source" =
        some "kubernetes") := by
  simp only [analyze_query_intent]
  constructor
  · rw [addSuggestions_intents, detectLanguage_intents]
    apply detectGithub_intents_mem
    rw [detectKubernetes_intents _ _ hk]
    simp
  · intro hg
    rw [addSuggestions_filters, detectLanguage_source, detectGithub_neg _ _ hg]
    exact detectKubernetes_source _ _ hk

/-- Witness for `analyze_k8s_keyword_amended` at the query "pod". -/
theorem analyze_k8s_keyword_amended_witness :
    "kubernetes" ∈ (analyze_query_intent "pod").detected_intents ∧
    (analyze_query_intent "pod").suggested_filters.lookup "source" =
      some "kubernetes" :=
  ⟨(analyze_k8s_keyword_amended "pod" (by decide)).1,
   (analyze_k8s_keyword_amended "pod" (by decide)).2 (by decide)⟩

/-- C10: when a query contains both a Kubernetes and a GitHub keyword, the
GitHub branch runs second and overwrites the `source` filter to "github",
while both intents stay in `detected_intents`. -/
theorem analyze_both_keywords_github_wins (q : String)
    (hk : k8s_keywords.any (fun kw => strContains (strLower q) kw) = true)
    (hg : github_keywords.any (fun kw => strContains (strLower q) kw) = true) :
    (analyze_query_intent q).suggested_filters.lookup "source" = some "github" ∧
    "kubernetes" ∈ (analyze_query_intent q).detected_intents ∧
    "github" ∈ (analyze_query_intent q).detected_intents := by
  simp only [analyze_query_intent]
  refine ⟨?_, ?_, ?_⟩
  · rw [addSuggestions_filters, detectLanguage_source]
    exact detectGithub_source_pos _ _ hg
  · rw [addSuggestions_intents, detectLanguage_intents]
    apply detectGithub_intents_mem
    rw [detectKubernetes_intents _ _ hk]
    simp
  · rw [addSuggestions_intents, detectLanguage_intents,
      detectGithub_intents_pos _ _ hg]
    simp

/-- Witness for `analyze_both_keywords_github_wins` at the query "pod repo". -/
theorem analyze_both_keywords_github_wins_witness :
    (analyze_query_intent "pod repo").suggested_filters.lookup "source" =
      some "github" ∧
    "kubernetes" ∈ (analyze_query_intent "pod repo").detected_intents ∧
    "github" ∈ (analyze_query_intent "pod repo").detected_intents :=
  analyze_both_keywords_github_wins "pod repo" (by decide) (by decide)

/-! ## `SearchAgent.search_kubernetes` filter construction (search_agent.py:61-103) -/

/-- ChromaDB filter expression: either a flat equality map, or an explicit
conjunction of sub-filters (the dict `\x7b"$and": [...]\x7d`). -/
inductive ChromaFilter where
  | simple (m : List (String × String)) : ChromaFilter
  | conj (fs : List ChromaFilter) : ChromaFilter

/-- Filter construction of `SearchAgent.search_kubernetes`
(search_agent.py:77-88): start from `\x7bsource: kubernetes\x7d`, collect one
equality clause per truthy parameter (`kind` first, then `namespace`), and
wrap in `$and` exactly when at least one extra clause exists. -/
def search_kubernetes_filters (resource_kind nspace : Option String) : ChromaFilter :=
  let filters : List (String × String) := [("source", "kubernetes")]
  let additional_conditions : List (List (String × String)) :=
    (if pyTruthy resource_kind then [[("kind", resource_kind.getD "")]] else []) ++
    (if pyTruthy nspace then [[("namespace", nspace.getD "")]] else [])
  if additional_conditions.isEmpty then
    ChromaFilter.simple filters
  else
    ChromaFilter.conj (ChromaFilter.simple filters ::
      additional_conditions.map ChromaFilter.simple)

/-- C2: the Kubernetes-scoped search filter is flat `\x7bsource: kubernetes\x7d`
when neither parameter is supplied; the AND of exactly the source clause and
the namespace clause when only a namespace is supplied; and in general,
whenever a parameter is supplied, the AND of the source clause plus one
equality clause per supplied parameter (kind before namespace). -/
theorem search_kubernetes_filter_spec :
    (search_kubernetes_filters none none =
      ChromaFilter.simple [("source", "kubernetes")]) ∧
    (∀ ns : String, ns ≠ "" →
      search_kubernetes_filters none (some ns) =
        ChromaFilter.conj [ChromaFilter.simple [("source", "kubernetes")],
          ChromaFilter.simple [("namespace", ns)]]) ∧
    (∀ rk ns : Option String, (pyTruthy rk || pyTruthy ns) = true →
      search_kubernetes_filters rk ns =
        ChromaFilter.conj (ChromaFilter.simple [("source", "kubernetes")] ::
          ((if pyTruthy rk then [ChromaFilter.simple [("kind", rk.getD "")]] else []) ++
           (if pyTruthy ns then [ChromaFilter.simple [("namespace", ns.getD "")]] else [])))) := by
  refine ⟨rfl, ?_, ?_⟩
  · intro ns hns
    have h : (String.isEmpty ns) = false := by
      cases h' : ns.isEmpty with
      | true => exact absurd ((String.isEmpty_iff ns).mp h') hns
      | false => rfl
    simp [search_kubernetes_filters, pyTruthy, h]
  · intro rk ns h
    cases hrk : pyTruthy rk with
    | true =>
      cases hns : pyTruthy ns with
      | true => simp [search_kubernetes_filters, hrk, hns]
      | false => simp [search_kubernetes_filters, hrk, hns]
    | false =>
      cases hns : pyTruthy ns with
      | true => simp [search_kubernetes_filters, hrk, hns]
      | false => rw [hrk, hns] at h; exact absurd h (by decide)

/-- Witness for `search_kubernetes_filter_spec`: namespace-only and
kind-only instances. -/
theorem search_kubernetes_filter_spec_witness :
    search_kubernetes_filters none (some "default") =
      ChromaFilter.conj [ChromaFilter.simple [("source", "kubernetes")],
        ChromaFilter.simple [("namespace", "default")]] ∧
    search_kubernetes_filters (some "Pod") none =
      ChromaFilter.conj (ChromaFilter.simple [("source", "kubernetes")] ::
        ((if pyTruthy (some "Pod") then
            [ChromaFilter.simple [("kind", (some "Pod").getD "")]] else []) ++
         (if pyTruthy (none : Option String) then
            [ChromaFilter.simple [("namespace", (none : Option String).getD "")]] else []))) :=
  ⟨search_kubernetes_filter_spec.2.1 "default" (by decide),
   search_kubernetes_filter_spec.2.2 (some "Pod") none (by decide)⟩

/-! ## `ChromaVectorStore.search` result shaping (vector_store.py:256-266)
and `SearchAgent.format_search_results` (search_agent.py:261-303) -/

/-- One formatted search result (vector_store.py:259-264). Distances are
modelled as rationals. -/
structure SearchResult where
  document : String
  metadata : List (String × String)
  distance : ℚ
  similarity : ℚ
deriving DecidableEq

/-- Raw response of `collection.query` (documents, metadatas, distances,
each already unwrapped from the singleton batch dimension). -/
structure RawQueryResult where
  documents : List String
  metadatas : List (List (String × String))
  distances : List ℚ

/-- The result-shaping loop of `ChromaVectorStore.search`
(vector_store.py:257-266): one `SearchResult` per returned document, with
`similarity := 1 - distance`. The parallel index loop of the source is
rendered as a zip (the store returns the three lists with equal length). -/
def search_results_of_raw (r : RawQueryResult) : List SearchResult :=
  (r.documents.zip (r.metadatas.zip r.distances)).map
    (fun x => { document := x.1, metadata := x.2.1, distance := x.2.2,
                similarity := 1 - x.2.2 })

/-- C7: every result produced by the vector-store search carries
`similarity = 1 - distance`. -/
theorem search_similarity_eq_one_sub_distance (r : RawQueryResult)
    (res : SearchResult) (h : res ∈ search_results_of_raw r) :
    res.similarity = 1 - res.distance := by
  rcases List.mem_map.mp h with ⟨x, _, rfl⟩
  rfl

/-- Witness for `search_similarity_eq_one_sub_distance` on a one-element
response with distance 0. -/
theorem search_similarity_witness :
    ({ document := "doc", metadata := [("source", "kubernetes")],
       distance := 0, similarity := 1 - 0 } : SearchResult).similarity =
      1 - ({ document := "doc", metadata := [("source", "kubernetes")],
             distance := 0, similarity := 1 - 0 } : SearchResult).distance :=
  search_similarity_eq_one_sub_distance
    { documents := ["doc"], metadatas := [[("source", "kubernetes")]],
      distances := [0] }
    _ (List.mem_singleton.mpr rfl)

/-- Zero-padded three-digit rendering of `n < 1000`. -/
def pad3 (n : ℕ) : String :=
  if n < 10 then "00" ++ toString n
  else if n < 100 then "0" ++ toString n
  else toString n

/-- Python's `f"{x:.3f}"` modelled on ℚ: round to three decimal places and
render. -/
def fmt3 (q : ℚ) : String :=
  let m : ℤ := round (|q| * 1000)
  (if q < 0 then "-" else "") ++ toString (m / 1000) ++ "." ++ pad3 (m % 1000).toNat

/-- Python's `s.upper()` (ASCII case folding, kernel-reducible). -/
def strUpper (s : String) : String := String.mk (s.data.map Char.toUpper)

/-- Header line of one formatted result (search_agent.py:281). -/
def result_header (i : ℕ) (r : SearchResult) : String :=
  toString i ++ ". [" ++ strUpper ((r.metadata.lookup "source").getD "unknown") ++
    "] " ++ ((r.metadata.lookup "name").getD "Unknown") ++
    " (similarity: " ++ fmt3 r.similarity ++ ")"

/-- Source-specific lines of one formatted result (search_agent.py:284-293). -/
def result_type_lines (r : SearchResult) : List String :=
  if r.metadata.lookup "source" = some "kubernetes" then
    ["   Kind: " ++ ((r.metadata.lookup "kind").getD "Unknown")] ++
    (if r.metadata.lookup "namespace" ≠ some "cluster-wide" then
      ["   Namespace: " ++ ((r.metadata.lookup "namespace").getD "Unknown")]
    else [])
  else if r.metadata.lookup "source" = some "github" then
    (if pyTruthy (r.metadata.lookup "repo_name") then
      ["   Repository: " ++ ((r.metadata.lookup "repo_name").getD "")]
    else []) ++
    (if pyTruthy (r.metadata.lookup "language") then
      ["   Language: " ++ ((r.metadata.lookup "language").getD "")]
    else [])
  else []

/-- Content preview (search_agent.py:298): truncate to 200 characters with
a literal "..." suffix only when the text is longer than 200 characters. -/
def content_preview (content : String) : String :=
  if content.length > 200 then content.take 200 ++ "..." else content

/-- Lines appended for one result by the loop body of
`format_search_results` (search_agent.py:276-301), including the trailing
blank line. -/
def result_lines (i : ℕ) (r : SearchResult) (show_content : Bool) : List String :=
  [result_header i r] ++ result_type_lines r ++
  (if show_content then ["   Content: " ++ content_preview r.document] else []) ++
  [""]

/-- The `formatted` list accumulated by `format_search_results`, with the
1-based index of `enumerate(results, 1)` threaded through. -/
def formatted_lines_from (i : ℕ) : List SearchResult → Bool → List String
  | [], _ => []
  | r :: rs, show_content =>
      result_lines i r show_content ++ formatted_lines_from (i + 1) rs show_content

/-- `SearchAgent.format_search_results` (search_agent.py:261-303). -/
def format_search_results (results : List SearchResult) (show_content : Bool) : String :=
  if results.isEmpty then "No results found."
  else String.intercalate "\n" (formatted_lines_from 1 results show_content)

/-- A line that belongs to the block of some listed result belongs to the
full formatted line list, wherever that result sits and whatever 1-based
index it gets. -/
theorem mem_formatted_lines_from (results : List SearchResult) (r : SearchResult)
    (show_content : Bool) (x : String) (hr : r ∈ results)
    (hx : ∀ j : ℕ, x ∈ result_lines j r show_content) :
    ∀ i : ℕ, x ∈ formatted_lines_from i results show_content := by
  induction results with
  | nil => cases hr
  | cons p t ih =>
    intro i
    rw [formatted_lines_from]
    rcases List.mem_cons.mp hr with h | h
    · exact List.mem_append_left _ (h ▸ hx i)
    · exact List.mem_append_right _ (ih h (i + 1))

/-- C8: with `show_content = True`, each result contributes a `Content:`
line holding the first 200 characters of its document followed by "..."
when the document exceeds 200 characters, and the untouched document text
otherwise. -/
theorem format_content_line (results : List SearchResult) (r : SearchResult)
    (hr : r ∈ results) :
    (r.document.length > 200 →
      ("   Content: " ++ r.document.take 200 ++ "...") ∈
        formatted_lines_from 1 results true) ∧
    (r.document.length ≤ 200 →
      ("   Content: " ++ r.document) ∈ formatted_lines_from 1 results true) := by
  constructor
  · intro hlen
    refine mem_formatted_lines_from results r true _ hr (fun j => ?_) 1
    have hp : content_preview r.document = r.document.take 200 ++ "..." := by
      rw [content_preview, if_pos hlen]
    rw [result_lines, if_pos rfl, hp]
    simp [String.append_assoc]
  · intro hlen
    refine mem_formatted_lines_from results r true _ hr (fun j => ?_) 1
    have hp : content_preview r.document = r.document := by
      rw [content_preview, if_neg (by omega)]
    rw [result_lines, if_pos rfl, hp]
    simp

set_option maxRecDepth 4000 in
/-- Witness for `format_content_line`: a 300-character document is cut to
its first 200 characters plus "...", and a short document passes through. -/
theorem format_content_line_witness :
    ("   Content: " ++ (String.mk (List.replicate 300 'a')).take 200 ++ "...") ∈
      formatted_lines_from 1
        [{ document := String.mk (List.replicate 300 'a'), metadata := [],
           distance := 0, similarity := 1 }] true ∧
    ("   Content: " ++ "tiny") ∈
      formatted_lines_from 1
        [{ document := "tiny", metadata := [], distance := 0, similarity := 1 }]
        true :=
  ⟨(format_content_line _ _ (List.mem_singleton.mpr rfl)).1 (by decide),
   (format_content_line _ _ (List.mem_singleton.mpr rfl)).2 (by decide)⟩

/-- C9: `format_search_results` on the empty result list returns exactly
the string "No results found.", with or without content display. -/
theorem format_search_results_empty (show_content : Bool) :
    format_search_results [] show_content = "No results found." := rfl

/-! ## `KubernetesSource` (sources/kubernetes.py) -/

/-- Kubernetes object metadata as surfaced by the client (the fields the
adapter reads). The `namespace` attribute is spelled `nspace` because
`namespace` is a Lean keyword. -/
structure V1ObjectMeta where
  name : String
  nspace : String
  labels : Option (List (String × String))
  annotations : Option (List (String × String))
  creation_timestamp : Option String
  resource_version : String
  uid : String
deriving DecidableEq, Repr

/-- A `V1Secret` as returned by `list_namespaced_secret` /
`list_secret_for_all_namespaces`: object metadata plus the base64-encoded
`data` section (`none` when the secret carries no data, in which case the
sanitized dict has no `data` key). -/
structure V1Secret where
  api_version : String
  metadata : V1ObjectMeta
  data : Option (List (String × String))
  type : String
deriving DecidableEq, Repr

/-- A generic (non-secret) Kubernetes API object: metadata plus its
serialized body, the part of the object the adapter keeps verbatim. -/
structure K8sObject where
  api_version : String
  metadata : V1ObjectMeta
  body : String
deriving DecidableEq, Repr

/-- `KubernetesEntity` dataclass (sources/kubernetes.py:13-36). The
`resource_metadata` dict (cluster name, resource type, api version, and the
`spec`/`status` attributes probed with `getattr`) is inlined. -/
structure KubernetesEntity where
  entity_id : String
  source_name : String
  name : String
  nspace : String
  kind : String
  api_version : String
  labels : List (String × String)
  annotations : List (String × String)
  creation_timestamp : Option String
  resource_version : String
  uid : String
  content : String
  meta_cluster_name : String
  meta_resource_type : String
  meta_api_version : String
deriving DecidableEq, Repr

/-- JSON-ish rendering of a string-to-string dict (stands in for
`json.dumps` output of one mapping). -/
def renderDict (kvs : List (String × String)) : String :=
  "\x7b" ++ String.intercalate ", "
    (kvs.map (fun p => "\x22" ++ p.1 ++ "\x22: \x22" ++ p.2 ++ "\x22")) ++ "\x7d"

/-- JSON-ish rendering of an optional dict-valued field: absent fields are
dropped by `sanitize_for_serialization`. -/
def renderOptDict (key : String) : Option (List (String × String)) → String
  | none => ""
  | some kvs => ", \x22" ++ key ++ "\x22: " ++ renderDict kvs

/-- `json.dumps(api_client.sanitize_for_serialization(secret))` modelled as
a concrete rendering of the sanitized secret. -/
def serializeSecret (s : V1Secret) : String :=
  "\x7b\x22apiVersion\x22: \x22" ++ s.api_version ++
  "\x22, \x22metadata\x22: " ++
  renderDict ([("name", s.metadata.name), ("namespace", s.metadata.nspace),
    ("resourceVersion", s.metadata.resource_version), ("uid", s.metadata.uid)] ++
    (match s.metadata.creation_timestamp with
     | some t => [("creationTimestamp", t)]
     | none => [])) ++
  renderOptDict "labels" s.metadata.labels ++
  renderOptDict "annotations" s.metadata.annotations ++
  renderOptDict "data" s.data ++
  ", \x22type\x22: \x22" ++ s.type ++ "\x22\x7d"

/-- `KubernetesSource._create_entity_from_k8s_object`
(sources/kubernetes.py:82-129), applied to an object with the given
metadata, api version, serialized content and kind. `cluster_name` comes
from the kube config and is passed in. -/
def create_entity_from_k8s_object (cluster_name : String) (m : V1ObjectMeta)
    (api_version content kind : String) : KubernetesEntity :=
  let nspace := if m.nspace = "" then "cluster-wide" else m.nspace
  { entity_id := "k8s://" ++ nspace ++ "/" ++ strLower kind ++ "/" ++ m.name
    source_name := "kubernetes"
    name := m.name
    nspace := nspace
    kind := kind
    api_version := api_version
    labels := m.labels.getD []
    annotations := m.annotations.getD []
    creation_timestamp := m.creation_timestamp
    resource_version := m.resource_version
    uid := m.uid
    content := content
    meta_cluster_name := cluster_name
    meta_resource_type := kind
    meta_api_version := api_version }

/-- The redaction step of `KubernetesSource.get_secrets`
(sources/kubernetes.py:214-216): if the sanitized secret has a `data`
section, replace every value in it by the fixed placeholder. -/
def redactSecretData (s : V1Secret) : V1Secret :=
  { s with data := s.data.map (fun d => d.map (fun p => (p.1, "[REDACTED]"))) }

/-- The per-secret body of the `get_secrets` loop
(sources/kubernetes.py:212-220): build the entity from the raw secret, then
overwrite its content with the serialization of the redacted copy before
yielding. -/
def get_secrets_entity (cluster_name : String) (s : V1Secret) : KubernetesEntity :=
  let entity := create_entity_from_k8s_object cluster_name s.metadata
    s.api_version (serializeSecret s) "Secret"
  { entity with content := serializeSecret (redactSecretData s) }

/-- Forgets exactly the data values of a secret (keeps keys, order, and
every other field): two secrets "differ only in the values of their data
section" iff they agree under this map. -/
def eraseDataValues (s : V1Secret) : V1Secret :=
  { s with data := s.data.map (fun d => d.map (fun p => (p.1, ""))) }

/-- C3: the entity `get_secrets` yields is fully determined by the secret
with its data values erased — any two Secrets that differ only in the
values of their `data` section (same keys, same other fields) produce
identical emitted entities, so no data value ever leaves the adapter. -/
theorem get_secrets_redacts (cluster_name : String) (s1 s2 : V1Secret)
    (h : eraseDataValues s1 = eraseDataValues s2) :
    get_secrets_entity cluster_name s1 = get_secrets_entity cluster_name s2 := by
  rcases s1 with ⟨a1, m1, d1, t1⟩
  rcases s2 with ⟨a2, m2, d2, t2⟩
  simp only [eraseDataValues, V1Secret.mk.injEq] at h
  obtain ⟨ha, hm, hd, ht⟩ := h
  subst ha
  subst hm
  subst ht
  have hred : d1.map (fun d => d.map (fun p => (p.1, "[REDACTED]"))) =
      d2.map (fun d => d.map (fun p => (p.1, "[REDACTED]"))) := by
    have key : ∀ o : Option (List (String × String)),
        o.map (fun d => d.map (fun p => (p.1, "[REDACTED]"))) =
        (o.map (fun d => d.map (fun p : String × String => (p.1, "")))).map
          (fun d => d.map (fun p => (p.1, "[REDACTED]"))) := by
      intro o
      cases o with
      | none => rfl
      | some d =>
        have e1 : ((some d).map (fun d => d.map (fun p : String × String => (p.1, "")))).map
            (fun d => d.map (fun p : String × String => (p.1, "[REDACTED]"))) =
            some ((d.map (fun p : String × String => (p.1, ""))).map
              (fun p : String × String => (p.1, "[REDACTED]"))) := rfl
        rw [e1, List.map_map]
        rfl
    rw [key d1, key d2, hd]
  simp only [get_secrets_entity, create_entity_from_k8s_object, redactSecretData]
  rw [hred]

/-- Witness for `get_secrets_redacts`: two secrets equal except for the
value stored under the "password" key yield identical entities. -/
theorem get_secrets_redacts_witness :
    get_secrets_entity "test-cluster"
      { api_version := "v1",
        metadata := { name := "db-creds", nspace := "default", labels := none,
                      annotations := none, creation_timestamp := none,
                      resource_version := "1", uid := "u1" },
        data := some [("password", "aHVudGVyMg==")],
        type := "Opaque" } =
    get_secrets_entity "test-cluster"
      { api_version := "v1",
        metadata := { name := "db-creds", nspace := "default", labels := none,
                      annotations := none, creation_timestamp := none,
                      resource_version := "1", uid := "u1" },
        data := some [("password", "c3VwZXJzZWNyZXQ=")],
        type := "Opaque" } :=
  get_secrets_redacts "test-cluster" _ _ (by decide)

/-! ## `ChromaVectorStore` ingestion side (vector_store.py:62-224) -/

/-- `ChromaVectorStore._prepare_document_text` (vector_store.py:62-111)
specialised to `KubernetesEntity` (the attribute probes for `repo_name`,
`repo_owner`, `path` and `language` all miss on it; `kind` and `name` are
always present). -/
def prepare_document_text (e : KubernetesEntity) : String :=
  String.intercalate "\n"
    (["Type: " ++ e.kind, "Name: " ++ e.name] ++
     (if e.nspace ≠ "" then ["Namespace: " ++ e.nspace] else []) ++
     (if e.labels ≠ [] then
        ["Labels: " ++ String.intercalate ", "
          (e.labels.map (fun p => p.1 ++ "=" ++ p.2))]
      else []) ++
     (if e.content ≠ "" then
        ["Content: " ++
          (if e.content.length > 2000 then e.content.take 2000 ++ "..." else e.content)]
      else []))

/-- `ChromaVectorStore._extract_metadata` (vector_store.py:113-151)
specialised to `KubernetesEntity`; `datetime.now().isoformat()` is passed
in as `timestamp`. All values are already strings, so the final
stringification is the identity. -/
def extract_metadata (timestamp : String) (e : KubernetesEntity) : List (String × String) :=
  [("timestamp", timestamp), ("entity_id", e.entity_id), ("source", e.source_name),
   ("kind", e.kind), ("type", "kubernetes"), ("namespace", e.nspace),
   ("name", e.name)]

/-- One stored ChromaDB document. -/
structure StoredDoc where
  id : String
  document : String
  embedding : List ℚ
  metadata : List (String × String)
deriving DecidableEq

/-- The ChromaDB collection, modelled as the ordered list of stored
documents; `collection.add` appends and `collection.count()` is the
length. -/
structure Collection where
  docs : List StoredDoc
deriving DecidableEq

def collection_add (c : Collection) (doc : StoredDoc) : Collection :=
  { docs := c.docs ++ [doc] }

def collection_count (c : Collection) : ℕ := c.docs.length

/-- `ChromaVectorStore.add_entity` (vector_store.py:153-180). The
embedding model is the function argument `embed`, and the random
disambiguator `uuid.uuid4().hex[:8]` is the argument `uuid_suffix`
(explicit state passing for the randomness). Returns the document id and
the updated collection. -/
def add_entity (embed : String → List ℚ) (timestamp : String) (c : Collection)
    (e : KubernetesEntity) (uuid_suffix : String) : String × Collection :=
  let text := prepare_document_text e
  let metadata := extract_metadata timestamp e
  let embedding := embed text
  let doc_id := ((metadata.lookup "source").getD "") ++ "_" ++
    ((metadata.lookup "entity_id").getD "") ++ "_" ++ uuid_suffix
  (doc_id,
   collection_add c
     { id := doc_id, document := text, embedding := embedding, metadata := metadata })

/-- C5: adding the same entity twice with distinct random disambiguator
suffixes stores two documents whose ids are the concatenations
`source_entityid_suffix`, which are distinct, and grows the document count
by exactly 2 — no dedup or upsert. -/
theorem add_entity_twice_no_dedup (embed : String → List ℚ) (ts : String)
    (c : Collection) (e : KubernetesEntity) (s1 s2 : String) (hs : s1 ≠ s2) :
    (add_entity embed ts c e s1).1 =
      e.source_name ++ "_" ++ e.entity_id ++ "_" ++ s1 ∧
    (add_entity embed ts (add_entity embed ts c e s1).2 e s2).1 =
      e.source_name ++ "_" ++ e.entity_id ++ "_" ++ s2 ∧
    (add_entity embed ts c e s1).1 ≠
      (add_entity embed ts (add_entity embed ts c e s1).2 e s2).1 ∧
    collection_count (add_entity embed ts (add_entity embed ts c e s1).2 e s2).2 =
      collection_count c + 2 := by
  refine ⟨rfl, rfl, ?_, ?_⟩
  · intro heq
    apply hs
    have hdata := congrArg String.data heq
    simp only [String.data_append] at hdata
    have h1 : s1.data = s2.data := by
      exact List.append_cancel_left hdata
    cases s1
    cases s2
    exact congrArg String.mk h1
  · simp [add_entity, collection_add, collection_count]

/-- Witness for `add_entity_twice_no_dedup`: a concrete pod entity added
twice to an empty collection with two distinct 8-character suffixes. -/
theorem add_entity_twice_no_dedup_witness :
    (add_entity (fun _ => []) "2024-01-01T00:00:00" { docs := [] }
        { entity_id := "k8s://default/pod/web", source_name := "kubernetes",
          name := "web", nspace := "default", kind := "Pod", api_version := "v1",
          labels := [], annotations := [], creation_timestamp := none,
          resource_version := "1", uid := "u1", content := "",
          meta_cluster_name := "c", meta_resource_type := "Pod",
          meta_api_version := "v1" } "a1b2c3d4").1 ≠
      (add_entity (fun _ => []) "2024-01-01T00:00:00"
        (add_entity (fun _ => []) "2024-01-01T00:00:00" { docs := [] }
          { entity_id := "k8s://default/pod/web", source_name := "kubernetes",
            name := "web", nspace := "default", kind := "Pod", api_version := "v1",
            labels := [], annotations := [], creation_timestamp := none,
            resource_version := "1", uid := "u1", content := "",
            meta_cluster_name := "c", meta_resource_type := "Pod",
            meta_api_version := "v1" } "a1b2c3d4").2
        { entity_id := "k8s://default/pod/web", source_name := "kubernetes",
          name := "web", nspace := "default", kind := "Pod", api_version := "v1",
          labels := [], annotations := [], creation_timestamp := none,
          resource_version := "1", uid := "u1", content := "",
          meta_cluster_name := "c", meta_resource_type := "Pod",
          meta_api_version := "v1" } "e5f6a7b8").1 ∧
    collection_count (add_entity (fun _ => []) "2024-01-01T00:00:00"
        (add_entity (fun _ => []) "2024-01-01T00:00:00" { docs := [] }
          { entity_id := "k8s://default/pod/web", source_name := "kubernetes",
            name := "web", nspace := "default", kind := "Pod", api_version := "v1",
            labels := [], annotations := [], creation_timestamp := none,
            resource_version := "1", uid := "u1", content := "",
            meta_cluster_name := "c", meta_resource_type := "Pod",
            meta_api_version := "v1" } "a1b2c3d4").2
        { entity_id := "k8s://default/pod/web", source_name := "kubernetes",
          name := "web", nspace := "default", kind := "Pod", api_version := "v1",
          labels := [], annotations := [], creation_timestamp := none,
          resource_version := "1", uid := "u1", content := "",
          meta_cluster_name := "c", meta_resource_type := "Pod",
          meta_api_version := "v1" } "e5f6a7b8").2 =
      collection_count { docs := [] } + 2 :=
  ⟨(add_entity_twice_no_dedup (fun _ => []) "2024-01-01T00:00:00" { docs := [] }
      { entity_id := "k8s://default/pod/web", source_name := "kubernetes",
        name := "web", nspace := "default", kind := "Pod", api_version := "v1",
        labels := [], annotations := [], creation_timestamp := none,
        resource_version := "1", uid := "u1", content := "",
        meta_cluster_name := "c", meta_resource_type := "Pod",
        meta_api_version := "v1" } "a1b2c3d4" "e5f6a7b8" (by decide)).2.2.1,
   (add_entity_twice_no_dedup (fun _ => []) "2024-01-01T00:00:00" { docs := [] }
      { entity_id := "k8s://default/pod/web", source_name := "kubernetes",
        name := "web", nspace := "default", kind := "Pod", api_version := "v1",
        labels := [], annotations := [], creation_timestamp := none,
        resource_version := "1", uid := "u1", content := "",
        meta_cluster_name := "c", meta_resource_type := "Pod",
        meta_api_version := "v1" } "a1b2c3d4" "e5f6a7b8" (by decide)).2.2.2⟩

/-! ## `DataIngestionPipeline.ingest_kubernetes_data`
(ingestion_pipeline.py:43-103) over `KubernetesSource.generate_entities`
(sources/kubernetes.py:249-270) -/

/-- One run's worth of Kubernetes API responses: `init_error` is `some msg`
when client initialization raises `ConnectionError` (sources/kubernetes.py:80),
and each listing is either the returned items or the message of an
`ApiException`. -/
structure ClusterApi where
  init_error : Option String
  namespaces_resp : Except String (List K8sObject)
  pods_resp : Except String (List K8sObject)
  services_resp : Except String (List K8sObject)
  deployments_resp : Except String (List K8sObject)
  configmaps_resp : Except String (List K8sObject)
  secrets_resp : Except String (List V1Secret)
  ingresses_resp : Except String (List K8sObject)

/-- A resource getter of `KubernetesSource` (e.g. `get_pods`,
sources/kubernetes.py:141-161): on success one entity per object; an
`ApiException` is caught inside the generator, printed, and swallowed — the
generator simply yields nothing. -/
def list_resource (cluster_name : String) (kind : String)
    (resp : Except String (List K8sObject)) : List KubernetesEntity :=
  match resp with
  | .ok objs => objs.map (fun o =>
      create_entity_from_k8s_object cluster_name o.metadata o.api_version o.body kind)
  | .error _ => []

/-- `KubernetesSource.get_secrets` (sources/kubernetes.py:204-223): same
swallowing of `ApiException`, with per-secret redaction. -/
def list_secrets (cluster_name : String)
    (resp : Except String (List V1Secret)) : List KubernetesEntity :=
  match resp with
  | .ok secrets => secrets.map (get_secrets_entity cluster_name)
  | .error _ => []

/-- `KubernetesSource.generate_entities` (sources/kubernetes.py:249-270):
initialize (a failed initialization raises `ConnectionError`, which
propagates out of the generator), then chain all resource getters. -/
def generate_entities (cluster_name : String) (api : ClusterApi) :
    Except String (List KubernetesEntity) :=
  match api.init_error with
  | some e => .error ("Failed to initialize Kubernetes client: " ++ e)
  | none => .ok
      (list_resource cluster_name "Namespace" api.namespaces_resp ++
       list_resource cluster_name "Pod" api.pods_resp ++
       list_resource cluster_name "Service" api.services_resp ++
       list_resource cluster_name "Deployment" api.deployments_resp ++
       list_resource cluster_name "ConfigMap" api.configmaps_resp ++
       list_secrets cluster_name api.secrets_resp ++
       list_resource cluster_name "Ingress" api.ingresses_resp)

/-- Result dict of `ingest_kubernetes_data`: the success shape carries the
counts and no error; the failure shape carries only the error message.
Timing fields are omitted. -/
structure IngestResult where
  source : String
  entities_processed : Option ℕ
  documents_added : Option ℕ
  error : Option String
  success : Bool
deriving DecidableEq, Repr

/-- The entity filter of `ingest_kubernetes_data`
(ingestion_pipeline.py:62-73); an empty filter list is falsy in Python and
disables that filter. -/
def keep_entity (namespaces resource_types : Option (List String))
    (e : KubernetesEntity) : Bool :=
  (match namespaces with
   | some ns => ns.isEmpty || (ns.contains e.nspace || e.nspace == "cluster-wide")
   | none => true) &&
  (match resource_types with
   | some ts => ts.isEmpty || ts.contains e.kind
   | none => true)

/-- `DataIngestionPipeline.ingest_kubernetes_data`
(ingestion_pipeline.py:43-103): any exception escaping the entity
generator is caught and turned into `\x7bsuccess: False, error: ...\x7d`;
otherwise the filtered entities are written in batches
(`add_entities_batch` returns one document id per entity; vector-store
writes are modelled as always succeeding, the claim under study concerns
Kubernetes connectivity) and the result reports success. -/
def ingest_kubernetes_data (cluster_name : String) (api : ClusterApi)
    (namespaces resource_types : Option (List String)) : IngestResult :=
  match generate_entities cluster_name api with
  | .error e =>
      { source := "kubernetes", entities_processed := none,
        documents_added := none, error := some e, success := false }
  | .ok ents =>
      let filtered := ents.filter (keep_entity namespaces resource_types)
      { source := "kubernetes", entities_processed := some filtered.length,
        documents_added := some filtered.length, error := none, success := true }

/-- C4 counterexample: a cluster where listing pods raises an
`ApiException` ("connection refused" — a connectivity failure) while
everything else is empty. The failure is swallowed inside `get_pods` and
ingestion reports an empty success: `success = true`, no error, zero
entities. -/
theorem ingest_swallows_pod_listing_failure :
    (ingest_kubernetes_data "c"
      { init_error := none, namespaces_resp := .ok [],
        pods_resp := .error "connection refused", services_resp := .ok [],
        deployments_resp := .ok [], configmaps_resp := .ok [],
        secrets_resp := .ok [], ingresses_resp := .ok [] } none none).success = true ∧
    (ingest_kubernetes_data "c"
      { init_error := none, namespaces_resp := .ok [],
        pods_resp := .error "connection refused", services_resp := .ok [],
        deployments_resp := .ok [], configmaps_resp := .ok [],
        secrets_resp := .ok [], ingresses_resp := .ok [] } none none).error = none ∧
    (ingest_kubernetes_data "c"
      { init_error := none, namespaces_resp := .ok [],
        pods_resp := .error "connection refused", services_resp := .ok [],
        deployments_resp := .ok [], configmaps_resp := .ok [],
        secrets_resp := .ok [], ingresses_resp := .ok [] } none none).entities_processed =
      some 0 :=
  ⟨rfl, rfl, rfl⟩

/-- C4 (amended): a connectivity failure raised while *initializing* the
Kubernetes client propagates out of the generator and is surfaced as
`\x7bsuccess: false, error: ...\x7d`; but an `ApiException` raised while
listing a resource type is caught inside the resource getter, logged, and
swallowed, so ingestion reports `success = true` regardless of listing
failures. -/
theorem ingest_surfaces_only_init_failures (cluster_name : String)
    (api : ClusterApi) (namespaces resource_types : Option (List String)) :
    (∀ msg, api.init_error = some msg →
      (ingest_kubernetes_data cluster_name api namespaces resource_types).success = false ∧
      (ingest_kubernetes_data cluster_name api namespaces resource_types).error =
        some ("Failed to initialize Kubernetes client: " ++ msg)) ∧
    (api.init_error = none →
      (ingest_kubernetes_data cluster_name api namespaces resource_types).success = true ∧
      (ingest_kubernetes_data cluster_name api namespaces resource_types).error = none) := by
  constructor
  · intro msg hmsg
    simp [ingest_kubernetes_data, generate_entities, hmsg]
  · intro hnone
    simp [ingest_kubernetes_data, generate_entities, hnone]

/-- Witness for `ingest_surfaces_only_init_failures`: an unreachable
cluster (kubeconfig loading fails) yields a structured failure result. -/
theorem ingest_surfaces_only_init_failures_witness :
    (ingest_kubernetes_data "c"
      { init_error := some "no route to host", namespaces_resp := .ok [],
        pods_resp := .ok [], services_resp := .ok [],
        deployments_resp := .ok [], configmaps_resp := .ok [],
        secrets_resp := .ok [], ingresses_resp := .ok [] } none none).success = false ∧
    (ingest_kubernetes_data "c"
      { init_error := some "no route to host", namespaces_resp := .ok [],
        pods_resp := .ok [], services_resp := .ok [],
        deployments_resp := .ok [], configmaps_resp := .ok [],
        secrets_resp := .ok [], ingresses_resp := .ok [] } none none).error =
      some ("Failed to initialize Kubernetes client: " ++ "no route to host") :=
  (ingest_surfaces_only_init_failures "c"
    { init_error := some "no route to host", namespaces_resp := .ok [],
      pods_resp := .ok [], services_resp := .ok [],
      deployments_resp := .ok [], configmaps_resp := .ok [],
      secrets_resp := .ok [], ingresses_resp := .ok [] } none none).1
    "no route to host" rfl
